import Mathlib

/-!
Shallow embedding of the `OrderEngine` matching-engine core
(`src/OrderTypes.h`, `src/Order.h`, `src/OrderTracker.h`, `src/DepthTracker.h`,
`src/OrderBook.h`).

Modelling conventions:
* `Price` (`int64_t`) is modelled as `Int`; `Quantity` (`uint64_t`) as `Nat`.
  The C++ unsigned subtractions that the translated code performs are modelled
  by truncated `Nat` subtraction; the two agree whenever no wrap-around occurs,
  which is the case on every execution path exercised by the theorems below.
* C++ `OrderPtr` (a shared pointer) is modelled as an order id (`Nat`) indexed
  into an explicit order store (`Store`, an association list).  Mutation of an
  order through one pointer is thereby visible through every other reference,
  exactly as with `std::shared_ptr`: a `PriceLevel` holds order ids, and the
  engine and the trackers share the store.
* Listener fan-out is modelled as an event stream: the engine appends one
  `EngineEvent` per broadcast, each of which the C++ code delivers to every
  registered listener of the relevant kind in registration order.
* Submitting a null `OrderPtr` makes the C++ validation fail, after which
  `rejectOrder` dereferences the null pointer (undefined behaviour), so
  `OrderBook.addOrder` returns `none` for an id that is absent from the store.
-/

/-- Embeds `OrderSide` from `OrderTypes.h`. -/
inductive OrderSide where
  | buy
  | sell
deriving DecidableEq, Repr

/-- Embeds `OrderType` from `OrderTypes.h` (LIMIT, MARKET, STOP, STOP_LIMIT). -/
inductive OrderType where
  | limit
  | market
  | stop
  | stopLimit
deriving DecidableEq, Repr

/-- Embeds `TimeInForce` from `OrderTypes.h`. -/
inductive TimeInForce where
  | gtc
  | ioc
  | fok
  | day
deriving DecidableEq, Repr

/-- Embeds `OrderStatus` from `OrderTypes.h`. -/
inductive OrderStatus where
  | pending
  | accepted
  | partiallyFilled
  | filled
  | cancelled
  | rejected
  | replaced
deriving DecidableEq, Repr

/-- Embeds the `FillFlags` bit `FILL_PARTIAL = 1 << 2` from `OrderTypes.h`. -/
def fillPartialBit : Nat := 4

/-- Embeds the `FillFlags` bit `FILL_COMPLETE = 1 << 3` from `OrderTypes.h`. -/
def fillCompleteBit : Nat := 8

/-- Embeds `ALL_OR_NONE = 1 << 0` from `OrderTypes.h` (`OrderConditions` bitmask). -/
def allOrNoneBit : Nat := 1

/-- Embeds `std::numeric_limits<Price>::max()`, the no-limit sentinel used by
`OrderBook::matchMarketBuyOrder`. -/
def int64Max : Int := 9223372036854775807

/-- The `Order` entity of `Order.h`: identity, static parameters and the
mutable lifecycle state that the engine updates in place. -/
structure Order where
  order_id : Nat
  symbol : String
  side : OrderSide
  quantity : Nat
  open_quantity : Nat
  price : Int
  stop_price : Int
  order_type : OrderType
  time_in_force : TimeInForce
  status : OrderStatus
deriving DecidableEq, Repr

instance : Inhabited Order :=
  ⟨⟨0, "", OrderSide.buy, 0, 0, 0, 0, OrderType.limit, TimeInForce.gtc, OrderStatus.pending⟩⟩

/-- Embeds `Order::is_buy`. -/
def Order.is_buy (o : Order) : Bool := o.side = OrderSide.buy

/-- Embeds `Order::is_market`. -/
def Order.is_market (o : Order) : Bool := o.order_type = OrderType.market

/-- Embeds `Order::is_stop` (true for STOP and STOP_LIMIT). -/
def Order.is_stop (o : Order) : Bool :=
  o.order_type = OrderType.stop || o.order_type = OrderType.stopLimit

/-- The shared-order heap: every live `OrderPtr` is an id into this store. -/
abbrev Store := List (Nat × Order)

/-- Dereference an `OrderPtr`: `none` models a null / dangling pointer. -/
def getOrderOpt : Store → Nat → Option Order
  | [], _ => none
  | (i, o) :: rest, id => if i = id then some o else getOrderOpt rest id

/-- Total dereference used where the C++ code unconditionally dereferences a
pointer that is always valid on the paths the engine takes. -/
def getOrder (s : Store) (id : Nat) : Order := (getOrderOpt s id).getD default

/-- Write back through a shared pointer: every store entry for the id is
replaced (the store never holds duplicate ids in well-formed states). -/
def setOrder : Store → Nat → Order → Store
  | [], _, _ => []
  | (i, o) :: rest, id, o' =>
    if i = id then (i, o') :: setOrder rest id o'
    else (i, o) :: setOrder rest id o'

/-- Embeds `PriceLevel` of `OrderTracker.h`: FIFO queue of orders at one price with
cached aggregate quantity and count. -/
structure PriceLevel where
  price : Int
  orders : List Nat
  total_quantity : Nat
  order_count : Nat
deriving DecidableEq, Repr

/-- Embeds `PriceLevel::add_order`: appends, adds `open_quantity` to the total,
increments the count. -/
def PriceLevel.add_order (lvl : PriceLevel) (o : Order) : PriceLevel :=
  { lvl with
    total_quantity := lvl.total_quantity + o.open_quantity
    order_count := lvl.order_count + 1
    orders := lvl.orders ++ [o.order_id] }

/-- Embeds `PriceLevel::remove_order`: subtracts the removed order's `open_quantity`
from the total, decrements the count, erases the entry (`uint64`/`size_t`
subtraction, wrap-free in well-formed states). -/
def PriceLevel.remove_order (lvl : PriceLevel) (store : Store) (oid : Nat) : PriceLevel :=
  { lvl with
    total_quantity := lvl.total_quantity - (getOrder store oid).open_quantity
    order_count := lvl.order_count - 1
    orders := lvl.orders.erase oid }

/-- Embeds `PriceLevel::update_quantity`: `total_quantity_ += (new_qty - old_qty)` in
`uint64` arithmetic, i.e. `total + new - old` absent wrap-around. -/
def PriceLevel.update_quantity (lvl : PriceLevel) (old_qty new_qty : Nat) : PriceLevel :=
  { lvl with total_quantity := lvl.total_quantity + new_qty - old_qty }

/-- Result of the `PriceLevel::fill_quantity` loop: the mutated store, the
surviving FIFO queue, the quantity filled so far and the updated aggregates. -/
structure FillResult where
  store : Store
  orders : List Nat
  filled : Nat
  total_quantity : Nat
  order_count : Nat
deriving DecidableEq, Repr

/-- The `while` loop body of `PriceLevel::fill_quantity`: iterates the FIFO
queue while `filled < max_quantity`, charging each order
`min(open_quantity, max_quantity - filled)`, erasing fully-filled orders
(status FILLED, count decremented) and marking the rest PARTIALLY_FILLED. -/
def fillLoop : Store → List Nat → Nat → Nat → Nat → Nat → FillResult
  | store, [], _, filled, total, count => ⟨store, [], filled, total, count⟩
  | store, id :: rest, maxq, filled, total, count =>
    if filled < maxq then
      let o := getOrder store id
      let available := o.open_quantity
      let fq := min available (maxq - filled)
      if available - fq = 0 then
        let store' := setOrder store id
          { o with open_quantity := available - fq, status := OrderStatus.filled }
        fillLoop store' rest maxq (filled + fq) (total - fq) (count - 1)
      else
        let store' := setOrder store id
          { o with open_quantity := available - fq, status := OrderStatus.partiallyFilled }
        let r := fillLoop store' rest maxq (filled + fq) (total - fq) count
        { r with orders := id :: r.orders }
    else ⟨store, id :: rest, filled, total, count⟩

/-- Embeds `PriceLevel::fill_quantity`: fills orders at this level FIFO up to
`max_quantity`, returning the new store, the new level and the filled
quantity. -/
def PriceLevel.fill_quantity (lvl : PriceLevel) (store : Store) (maxq : Nat) :
    Store × PriceLevel × Nat :=
  let r := fillLoop store lvl.orders maxq 0 lvl.total_quantity lvl.order_count
  (r.store,
   { lvl with orders := r.orders, total_quantity := r.total_quantity,
              order_count := r.order_count },
   r.filled)

/-- One side of the book, `OrderTracker` of `OrderTracker.h`.
`price_levels` models `std::map<Price, PriceLevelPtr>` — NOTE: the source
instantiates the map with the default `std::less<Price>` comparator (the
declared `PriceComparator` is never plugged in), so the keys are in ascending
price order for BOTH sides; the list here is kept sorted ascending.
`order_locations` models `order_locations_` restricted to the price component
(the iterator component is only consulted through the id it denotes). -/
structure OrderTracker where
  is_buy_side : Bool
  price_levels : List PriceLevel
  order_locations : List (Nat × Int)
deriving DecidableEq, Repr

/-- Embeds `order_locations_.find(id)`. -/
def lookupLoc : List (Nat × Int) → Nat → Option Int
  | [], _ => none
  | (i, p) :: rest, id => if i = id then some p else lookupLoc rest id

/-- Embeds `order_locations_[id] = (price, it)`: `std::map` subscript-assign,
inserting or overwriting. -/
def upsertLoc (locs : List (Nat × Int)) (id : Nat) (p : Int) : List (Nat × Int) :=
  if (lookupLoc locs id).isSome then
    locs.map (fun q => if q.1 = id then (id, p) else q)
  else locs ++ [(id, p)]

/-- Embeds `price_levels_.find(price)` on the ascending key list. -/
def findLevel : List PriceLevel → Int → Option PriceLevel
  | [], _ => none
  | lvl :: rest, p => if lvl.price = p then some lvl else findLevel rest p

/-- Find-or-create the `PriceLevel` for `price` and `add_order` the order into
it, keeping the `std::map`'s ascending key order. -/
def insertLevel : List PriceLevel → Order → List PriceLevel
  | [], o => [PriceLevel.add_order ⟨o.price, [], 0, 0⟩ o]
  | lvl :: rest, o =>
    if lvl.price = o.price then lvl.add_order o :: rest
    else if o.price < lvl.price then PriceLevel.add_order ⟨o.price, [], 0, 0⟩ o :: lvl :: rest
    else lvl :: insertLevel rest o

/-- Embeds `OrderTracker::addOrder`: insert at `order.price` (creating the level if
absent) and record the order's location. -/
def OrderTracker.addOrder (t : OrderTracker) (o : Order) : OrderTracker :=
  { t with
    price_levels := insertLevel t.price_levels o
    order_locations := upsertLoc t.order_locations o.order_id o.price }

/-- Replace the level with the given price in the ascending list. -/
def replaceLevel (lvls : List PriceLevel) (p : Int) (lvl' : PriceLevel) : List PriceLevel :=
  lvls.map (fun lvl => if lvl.price = p then lvl' else lvl)

/-- Erase the level with the given price from the ascending list. -/
def eraseLevel (lvls : List PriceLevel) (p : Int) : List PriceLevel :=
  lvls.filter (fun lvl => lvl.price ≠ p)

/-- Embeds `OrderTracker::remove_order`: look up the location, remove the order from
its level, erase the level if it became empty, erase the location entry.
Returns `false` when the id is not indexed or the indexed level is missing. -/
def OrderTracker.remove_order (t : OrderTracker) (store : Store) (oid : Nat) :
    OrderTracker × Bool :=
  match lookupLoc t.order_locations oid with
  | none => (t, false)
  | some price =>
    match findLevel t.price_levels price with
    | none => (t, false)
    | some lvl =>
      let lvl' := lvl.remove_order store oid
      let lvls := if lvl'.orders.isEmpty then eraseLevel t.price_levels price
                  else replaceLevel t.price_levels price lvl'
      ({ t with price_levels := lvls,
                order_locations := t.order_locations.filter (fun q => q.1 ≠ oid) },
       true)

/-- Embeds `OrderTracker::update_order_quantity`: look up the location and the level,
write `new_qty` into the order, then `PriceLevel::update_quantity` adjusts the
cached total by `new_qty - old_qty`.  Nothing is removed. -/
def OrderTracker.update_order_quantity (t : OrderTracker) (store : Store)
    (oid : Nat) (newQty : Nat) : OrderTracker × Store :=
  match lookupLoc t.order_locations oid with
  | none => (t, store)
  | some price =>
    match findLevel t.price_levels price with
    | none => (t, store)
    | some _ =>
      let o := getOrder store oid
      let oldQty := o.open_quantity
      let store' := setOrder store oid { o with open_quantity := newQty }
      let lvls := t.price_levels.map (fun lvl =>
        if lvl.price = price then lvl.update_quantity oldQty newQty else lvl)
      ({ t with price_levels := lvls }, store')

/-- Embeds `OrderTracker::best_price`: front key of the map, `0` when empty. -/
def OrderTracker.best_price (t : OrderTracker) : Int :=
  match t.price_levels with
  | [] => 0
  | lvl :: _ => lvl.price

/-- The inner `while` of `OrderTracker::matchQuantity`: walk one level's FIFO
queue while `remaining > 0`, recording `min(open_quantity, remaining)` per
order.  Returns the recorded pairs and the remaining quantity. -/
def matchOrdersInLevel (store : Store) : List Nat → Nat → List (Nat × Nat) × Nat
  | [], remaining => ([], remaining)
  | id :: rest, remaining =>
    if remaining = 0 then ([], remaining)
    else
      let available := (getOrder store id).open_quantity
      let mq := min available remaining
      let (tl, rem) := matchOrdersInLevel store rest (remaining - mq)
      ((id, mq) :: tl, rem)

/-- The outer `while` of `OrderTracker::matchQuantity`: walk the level list in
map-key order while `remaining > 0`, `break`ing at the first level that fails
the side's eligibility test (buy side `level_price ≥ limit`, sell side
`level_price ≤ limit`). -/
def matchLevels (store : Store) (isBuy : Bool) :
    List PriceLevel → Int → Nat → List (Nat × Nat)
  | [], _, _ => []
  | lvl :: rest, limit, remaining =>
    if remaining = 0 then []
    else if ¬ (if isBuy then lvl.price ≥ limit else lvl.price ≤ limit) then []
    else
      let (ms, rem) := matchOrdersInLevel store lvl.orders remaining
      ms ++ matchLevels store isBuy rest limit rem

/-- Embeds `OrderTracker::matchQuantity`: the read-only match plan — a list of
`(order id, matchable quantity)` pairs. -/
def OrderTracker.matchQuantity (t : OrderTracker) (store : Store)
    (limit_price : Int) (max_quantity : Nat) : List (Nat × Nat) :=
  matchLevels store t.is_buy_side t.price_levels limit_price max_quantity

/-- Sum of the open quantities of a list of order ids. -/
def sumOpen (store : Store) : List Nat → Nat
  | [] => 0
  | id :: rest => (getOrder store id).open_quantity + sumOpen store rest

/-- Spec §8 invariant 4 as a decidable check: every `PriceLevel` of the
tracker has `total_qty = Σ open_qty` and `order_count = |orders|`. -/
def aggregateConsistentB (t : OrderTracker) (store : Store) : Bool :=
  t.price_levels.all (fun lvl =>
    lvl.total_quantity = sumOpen store lvl.orders ∧ lvl.order_count = lvl.orders.length)

/-- A listener callback broadcast by the engine.  The C++ code delivers each
broadcast to every registered listener of the relevant kind in registration
order; the implemented engine only ever broadcasts `on_reject` (`cancel` is
declared because `OrderListener::on_cancel` exists, but no implemented code
path emits it). -/
inductive EngineEvent where
  | reject (order_id : Nat) (reason : String)
  | cancel (order_id : Nat) (cancelled_qty : Nat)
deriving DecidableEq, Repr

/-- A `TradeExecution` record of `OrderBook.h` (the timestamp field is not
modelled). -/
structure TradeRec where
  inbound_id : Nat
  resting_id : Nat
  quantity : Nat
  price : Int
  flags : Nat
deriving DecidableEq, Repr

/-- The `OrderBook` engine state of `OrderBook.h`: the four side books, market
state, statistics counters, the pending-trade staging buffer and the emitted
event stream (the `DepthTracker` member is modelled separately because no
implemented engine path drives it). -/
structure OrderBook where
  symbol : String
  bid_tracker : OrderTracker
  ask_tracker : OrderTracker
  stop_bid_tracker : OrderTracker
  stop_ask_tracker : OrderTracker
  market_price : Int
  last_trade_price : Int
  last_trade_quantity : Nat
  stats_trades : Nat
  stats_volume : Nat
  stats_rejected : Nat
  pending_trades : List TradeRec
  events : List EngineEvent
deriving DecidableEq, Repr

/-- Embeds `OrderBook::IsAllOrNone`: `(conditions & ALL_OR_NONE) == 1`. -/
def IsAllOrNone (conditions : Nat) : Bool := conditions &&& allOrNoneBit = 1

/-- Embeds `OrderBook::validateOrder`, the non-null rules: symbol matches, original
quantity nonzero, open quantity within the original, non-market orders carry a
positive price, stop orders carry a positive stop price. -/
def validateOrder (sym : String) (o : Order) : Bool :=
  o.symbol = sym && o.quantity ≠ 0 && o.open_quantity ≤ o.quantity &&
    (o.is_market || o.price > 0) && (!o.is_stop || o.stop_price > 0)

/-- Embeds `OrderBook::rejectOrder`: set status REJECTED, bump the rejected counter,
broadcast `on_reject(order, reason)` to the order listeners. -/
def rejectOrder (book : OrderBook) (store : Store) (oid : Nat) (reason : String) :
    OrderBook × Store :=
  let store' := setOrder store oid { getOrder store oid with status := OrderStatus.rejected }
  ({ book with
      stats_rejected := book.stats_rejected + 1
      events := book.events ++ [EngineEvent.reject oid reason] },
   store')

/-- Embeds `OrderBook::executeTrade`: stage a `TradeExecution` record, update the
statistics and the market state, and update the resting order's open quantity
and status in place.  The `uint64` subtraction `open_quantity - quantity` is
wrap-free on every engine path (the planned quantity never exceeds the resting
order's open quantity). -/
def executeTrade (book : OrderBook) (store : Store) (inId restId : Nat)
    (quantity : Nat) (price : Int) : OrderBook × Store :=
  let flags := if (getOrder store inId).open_quantity = quantity
               then fillCompleteBit else fillPartialBit
  let book' := { book with
    pending_trades := book.pending_trades ++ [⟨inId, restId, quantity, price, flags⟩]
    stats_trades := book.stats_trades + 1
    stats_volume := book.stats_volume + quantity
    last_trade_price := price
    last_trade_quantity := quantity
    market_price := price }
  let resting := getOrder store restId
  let rem := resting.open_quantity - quantity
  let store' := setOrder store restId
    { resting with
      open_quantity := rem
      status := if rem = 0 then OrderStatus.filled else OrderStatus.partiallyFilled }
  (book', store')

/-- The `for` loop of `OrderBook::matchBuyOrder` over the match plan: skip
all-or-none-infeasible entries, otherwise fill `min(plan_qty, remaining)` at
the resting order's price, update the inbound order in place, `break` once the
inbound order is exhausted. -/
def matchLoop (book : OrderBook) (store : Store) (inId : Nat) (conditions : Nat) :
    List (Nat × Nat) → Nat → Bool → OrderBook × Store × Bool
  | [], _, any_fill => (book, store, any_fill)
  | (restId, restQty) :: rest, inRemaining, any_fill =>
    if inRemaining = 0 then (book, store, any_fill)
    else if IsAllOrNone conditions && restQty < inRemaining then
      matchLoop book store inId conditions rest inRemaining any_fill
    else
      let fq := min restQty inRemaining
      let fp := (getOrder store restId).price
      let e := executeTrade book store inId restId fq fp
      let inRemaining' := inRemaining - fq
      let store'' := setOrder e.2 inId
        { getOrder e.2 inId with open_quantity := inRemaining' }
      if inRemaining' = 0 then
        let store3 := setOrder store'' inId
          { getOrder store'' inId with status := OrderStatus.filled }
        (e.1, store3, true)
      else
        let store3 := setOrder store'' inId
          { getOrder store'' inId with status := OrderStatus.partiallyFilled }
        matchLoop e.1 store3 inId conditions rest inRemaining' true

/-- Embeds `OrderBook::matchBuyOrder`: obtain the match plan from the ask tracker and
run the fill loop. -/
def matchBuyOrder (book : OrderBook) (store : Store) (inId : Nat)
    (conditions : Nat) (limitPrice : Int) : OrderBook × Store × Bool :=
  let inRemaining := (getOrder store inId).open_quantity
  let plan := book.ask_tracker.matchQuantity store limitPrice inRemaining
  matchLoop book store inId conditions plan inRemaining false

/-- Embeds `OrderBook::matchMarketBuyOrder`: a market buy has no price limit. -/
def matchMarketBuyOrder (book : OrderBook) (store : Store) (inId : Nat)
    (conditions : Nat) : OrderBook × Store × Bool :=
  matchBuyOrder book store inId conditions int64Max

/-- Embeds `OrderBook::processMarketOrder`: match market buys (market sells are an
unimplemented todo); any remaining open quantity marks the order CANCELLED
(the cancel notification is an unimplemented todo — no event is emitted). -/
def processMarketOrder (book : OrderBook) (store : Store) (oid : Nat)
    (conditions : Nat) : OrderBook × Store × Bool :=
  let r := if (getOrder store oid).is_buy then matchMarketBuyOrder book store oid conditions
           else (book, store, false)
  if (getOrder r.2.1 oid).open_quantity > 0 then
    (r.1, setOrder r.2.1 oid { getOrder r.2.1 oid with status := OrderStatus.cancelled },
     r.2.2)
  else r

/-- Embeds `OrderBook::addOrder`: validate (rejecting on failure), then dispatch —
only market orders are processed; limit and stop processing are unimplemented
todos, so such orders fall through unchanged with `filled = false`.  Returns
`none` for an absent id (null `OrderPtr`): the C++ reject path would
dereference the null pointer, which is undefined behaviour. -/
def OrderBook.addOrder (book : OrderBook) (store : Store) (oid : Nat)
    (conditions : Nat) : Option (OrderBook × Store × Bool) :=
  match getOrderOpt store oid with
  | none => none
  | some o =>
    if validateOrder book.symbol o then
      if o.is_market then some (processMarketOrder book store oid conditions)
      else some (book, store, false)
    else
      let r := rejectOrder book store oid "Invalid order parameters"
      some (r.1, r.2, false)

/-- A `DepthLevel` of `DepthTracker.h`: price, total quantity, order count. -/
structure DepthLevel where
  price : Int
  quantity : Nat
  order_count : Nat
deriving DecidableEq, Repr

/-- A `DepthTracker::DepthChange` record. -/
structure DepthChange where
  is_bid : Bool
  level : Nat
  price : Int
  old_quantity : Nat
  new_quantity : Nat
  old_order_count : Nat
  new_order_count : Nat
deriving DecidableEq, Repr

/-- The `DepthTracker` state: the active prefixes of the current and previous
snapshot arrays (the C++ fixed arrays are zero-padded beyond `bid_count_` /
`ask_count_` and never read there), the changed flag and the change list. -/
structure DepthTracker where
  bid_levels : List DepthLevel
  ask_levels : List DepthLevel
  prev_bid_levels : List DepthLevel
  prev_ask_levels : List DepthLevel
  changed : Bool
  changes : List DepthChange
deriving DecidableEq, Repr

/-- Embeds `DepthTracker::update_bid_side` / `update_ask_side`: walk the tracker's
levels in map-key order, skip empty levels, keep at most `N`, and snapshot
`(price, total_quantity, order_count)` of each. -/
def depthSide (t : OrderTracker) (N : Nat) : List DepthLevel :=
  ((t.price_levels.filter (fun lvl => !lvl.orders.isEmpty)).take N).map
    (fun lvl => ⟨lvl.price, lvl.total_quantity, lvl.order_count⟩)

/-- The per-side scan of `DepthTracker::detect_changes`: compare current and
previous snapshots slot by slot; a surviving slot contributes when it differs,
a newly-occupied slot reports the old quantities as zero, a vacated slot
reports the new quantities as zero with the previous price. -/
def detectSide (isBid : Bool) : List DepthLevel → List DepthLevel → Nat → List DepthChange
  | [], [], _ => []
  | [], p :: ps, i =>
    ⟨isBid, i, p.price, p.quantity, 0, p.order_count, 0⟩ :: detectSide isBid [] ps (i + 1)
  | c :: cs, [], i =>
    ⟨isBid, i, c.price, 0, c.quantity, 0, c.order_count⟩ :: detectSide isBid cs [] (i + 1)
  | c :: cs, p :: ps, i =>
    (if c ≠ p then [⟨isBid, i, c.price, p.quantity, c.quantity, p.order_count, c.order_count⟩]
     else []) ++ detectSide isBid cs ps (i + 1)

/-- Embeds `DepthTracker::update_from_tracker`: save the previous snapshot, refill
both sides from the trackers, then detect changes; `changed_` ends up true
exactly when the change list is nonempty. -/
def DepthTracker.update_from_tracker (dt : DepthTracker) (N : Nat)
    (bid_tracker ask_tracker : OrderTracker) : DepthTracker :=
  let prevB := dt.bid_levels
  let prevA := dt.ask_levels
  let newB := depthSide bid_tracker N
  let newA := depthSide ask_tracker N
  let cs := detectSide true newB prevB 0 ++ detectSide false newA prevA 0
  { bid_levels := newB, ask_levels := newA,
    prev_bid_levels := prevB, prev_ask_levels := prevA,
    changed := !cs.isEmpty, changes := cs }

/-- An empty `OrderTracker` for the given side. -/
def emptyTracker (isBuy : Bool) : OrderTracker := ⟨isBuy, [], []⟩

/-- A fresh `OrderBook` for a symbol, as built by the `OrderBook` constructor. -/
def emptyBook (sym : String) : OrderBook :=
  { symbol := sym
    bid_tracker := emptyTracker true
    ask_tracker := emptyTracker false
    stop_bid_tracker := emptyTracker true
    stop_ask_tracker := emptyTracker false
    market_price := 0
    last_trade_price := 0
    last_trade_quantity := 0
    stats_trades := 0
    stats_volume := 0
    stats_rejected := 0
    pending_trades := []
    events := [] }

/-- Scenario A resting order: sell LIMIT 100 @ 15000, id 1, fully open. -/
def orderA1 : Order :=
  { order_id := 1, symbol := "AAPL", side := OrderSide.sell, quantity := 100,
    open_quantity := 100, price := 15000, stop_price := 0,
    order_type := OrderType.limit, time_in_force := TimeInForce.gtc,
    status := OrderStatus.accepted }

/-- Scenario A inbound order: market buy 40, id 2. -/
def orderA2 : Order :=
  { order_id := 2, symbol := "AAPL", side := OrderSide.buy, quantity := 40,
    open_quantity := 40, price := 0, stop_price := 0,
    order_type := OrderType.market, time_in_force := TimeInForce.gtc,
    status := OrderStatus.pending }

/-- Scenario A shared order heap. -/
def storeA : Store := [(1, orderA1), (2, orderA2)]

/-- Scenario A book: the ask side holds exactly the resting order id 1. -/
def bookA : OrderBook :=
  { emptyBook "AAPL" with ask_tracker := (emptyTracker false).addOrder orderA1 }

/-- Scenario C3 inbound order: buy LIMIT 40 @ 15000, id 2, crossing the
resting ask `orderA1`. -/
def orderL2 : Order :=
  { order_id := 2, symbol := "AAPL", side := OrderSide.buy, quantity := 40,
    open_quantity := 40, price := 15000, stop_price := 0,
    order_type := OrderType.limit, time_in_force := TimeInForce.gtc,
    status := OrderStatus.pending }

/-- Shared heap for the limit-order scenario. -/
def storeL : Store := [(1, orderA1), (2, orderL2)]

/-- Shared heap for the market-order-against-empty-book scenario. -/
def storeM : Store := [(2, orderA2)]

/-- Buy-side resting order at the worse price 10 (id 11, open 5). -/
def orderB11 : Order :=
  { order_id := 11, symbol := "AAPL", side := OrderSide.buy, quantity := 5,
    open_quantity := 5, price := 10, stop_price := 0,
    order_type := OrderType.limit, time_in_force := TimeInForce.gtc,
    status := OrderStatus.accepted }

/-- Buy-side resting order at the better price 20 (id 12, open 5). -/
def orderB12 : Order :=
  { order_id := 12, symbol := "AAPL", side := OrderSide.buy, quantity := 5,
    open_quantity := 5, price := 20, stop_price := 0,
    order_type := OrderType.limit, time_in_force := TimeInForce.gtc,
    status := OrderStatus.accepted }

/-- Shared heap for the buy-side match-plan scenario. -/
def storeB : Store := [(11, orderB11), (12, orderB12)]

/-- A buy-side SideBook holding ids 11 (price 10) and 12 (price 20). -/
def buyTrackerB : OrderTracker :=
  ((emptyTracker true).addOrder orderB11).addOrder orderB12

/-- Resting buy order used by the amend-to-zero scenario (id 7, open 50 at
price 100). -/
def orderZ7 : Order :=
  { order_id := 7, symbol := "AAPL", side := OrderSide.buy, quantity := 50,
    open_quantity := 50, price := 100, stop_price := 0,
    order_type := OrderType.limit, time_in_force := TimeInForce.gtc,
    status := OrderStatus.accepted }

/-- Shared heap for the amend-to-zero scenario. -/
def storeZ : Store := [(7, orderZ7)]

/-- A buy-side SideBook holding only order id 7. -/
def buyTrackerZ : OrderTracker := (emptyTracker true).addOrder orderZ7

/-- C1: Scenario A — submitting the market buy id 2 (qty 40) against the
resting ask id 1 (100 @ 15000) stages exactly one trade (2 vs 1, qty 40,
price 15000), leaves id 1 PARTIALLY_FILLED with open 60 and id 2 FILLED with
open 0, and sets the engine's market price to 15000. -/
theorem scenario_a_simple_cross :
    ∃ b' s', bookA.addOrder storeA 2 0 = some (b', s', true) ∧
      b'.pending_trades = [⟨2, 1, 40, 15000, fillCompleteBit⟩] ∧
      (getOrder s' 1).status = OrderStatus.partiallyFilled ∧
      (getOrder s' 1).open_quantity = 60 ∧
      (getOrder s' 2).status = OrderStatus.filled ∧
      (getOrder s' 2).open_quantity = 0 ∧
      b'.market_price = 15000 := by
  exact ⟨_, _, rfl, by decide, by decide, by decide, by decide, by decide, by decide⟩

/-- C2: the engine breaks aggregate consistency — before Scenario A's fill the
ask book satisfies invariant 4, afterwards its price level still caches
`total_qty = 100` while the open quantities of its orders sum to 60
(`executeTrade` mutates the resting order in place and never updates the
tracker's aggregates; `PriceLevel::fill_quantity` is never called). -/
theorem aggregate_consistency_broken_by_fill :
    aggregateConsistentB bookA.ask_tracker storeA = true ∧
    ∃ b' s', bookA.addOrder storeA 2 0 = some (b', s', true) ∧
      aggregateConsistentB b'.ask_tracker s' = false ∧
      b'.ask_tracker.price_levels.map PriceLevel.total_quantity = [100] ∧
      b'.ask_tracker.price_levels.map (fun lvl => sumOpen s' lvl.orders) = [60] := by
  exact ⟨by decide, _, _, rfl, by decide, by decide, by decide⟩

/-- C3: the claimed LIMIT-order processing is an unimplemented todo — a valid
limit buy 40 @ 15000 crossing the resting ask id 1 (100 @ 15000) is returned
unprocessed: `add_order` yields `false` and leaves the book and every order
untouched, even though the opposite book's match plan for the order's limit
price is nonempty. -/
theorem limit_order_not_processed :
    bookA.addOrder storeL 2 0 = some (bookA, storeL, false) ∧
    validateOrder bookA.symbol orderL2 = true ∧
    bookA.ask_tracker.matchQuantity storeL 15000 40 = [(1, 40)] := by
  refine ⟨rfl, by decide, by decide⟩

/-- C7: a valid market buy against an empty ask book executes no fill and is
marked CANCELLED with its open quantity intact, but NO `on_cancel` event is
broadcast (the notification is an unimplemented todo): the emitted event
stream stays empty. -/
theorem market_order_empty_book_no_cancel_event :
    ∃ b' s', (emptyBook "AAPL").addOrder storeM 2 0 = some (b', s', false) ∧
      b'.pending_trades = [] ∧
      (getOrder s' 2).status = OrderStatus.cancelled ∧
      (getOrder s' 2).open_quantity = 40 ∧
      b'.events = [] := by
  exact ⟨_, _, rfl, by decide, by decide, by decide, by decide⟩

/-- C5: on a buy-side SideBook the match walk is NOT best-first — the level
map iterates ascending (the declared descending `PriceComparator` is never
installed), so `matchQuantity 15 5` hits the ineligible worse level (price 10)
first and `break`s, returning an empty plan although the better level at
price 20 holds an eligible order (id 12, open 5, 20 ≥ 15). -/
theorem match_quantity_buy_side_not_best_first :
    buyTrackerB.matchQuantity storeB 15 5 = [] ∧
    buyTrackerB.price_levels.map PriceLevel.price = [10, 20] ∧
    lookupLoc buyTrackerB.order_locations 12 = some 20 ∧
    (getOrder storeB 12).open_quantity = 5 ∧ (20 : Int) ≥ 15 := by
  refine ⟨by decide, by decide, by decide, by decide, by decide⟩

/-- C8 counterexample: amending order id 7 (open 50 at price 100) to quantity
0 is NOT equivalent to removal — the order stays in its price level, the
level's `order_count` stays 1, and the location index still maps id 7,
whereas `remove_order` empties all three. -/
theorem amend_to_zero_not_removal :
    ((buyTrackerZ.update_order_quantity storeZ 7 0).1.price_levels.map
        PriceLevel.orders = [[7]]) ∧
    ((buyTrackerZ.update_order_quantity storeZ 7 0).1.price_levels.map
        PriceLevel.order_count = [1]) ∧
    lookupLoc (buyTrackerZ.update_order_quantity storeZ 7 0).1.order_locations 7
      = some 100 ∧
    (buyTrackerZ.remove_order storeZ 7).1.price_levels = [] ∧
    lookupLoc (buyTrackerZ.remove_order storeZ 7).1.order_locations 7 = none ∧
    (buyTrackerZ.update_order_quantity storeZ 7 0).1
      ≠ (buyTrackerZ.remove_order storeZ 7).1 := by
  refine ⟨by decide, by decide, by decide, by decide, by decide, by decide⟩

/-- Writing an order through one shared pointer is observed through every
pointer: lookup after `setOrder` returns the written order exactly when the
id matches (and was live). -/
theorem getOrderOpt_setOrder (s : Store) (id : Nat) (o' : Order) (j : Nat) :
    getOrderOpt (setOrder s id o') j =
      if j = id then (getOrderOpt s j).map (fun _ => o') else getOrderOpt s j := by
  induction s with
  | nil => simp [setOrder, getOrderOpt]
  | cons hd tl ih =>
    obtain ⟨i, a⟩ := hd
    by_cases hi : i = id
    · subst hi
      simp only [setOrder, if_pos rfl, getOrderOpt]
      by_cases hj : i = j
      · subst hj
        simp
      · have hj' : ¬ j = i := fun h => hj h.symm
        simp [hj, hj', ih]
    · simp only [setOrder, if_neg hi, getOrderOpt]
      by_cases hj : i = j
      · subst hj
        simp [hi]
      · simp [hj, ih]

/-- C8 (amended): amending a tracked order's quantity to 0 writes open
quantity 0 into the order and subtracts the old open quantity from the
containing level's cached `total_qty`, but removes nothing — the side, the
location index and every level's order list and `order_count` are unchanged,
so it is not equivalent to `remove_order`. -/
theorem amend_to_zero_behaviour (t : OrderTracker) (store : Store) (oid : Nat)
    (p : Int) (o : Order) (lvl0 : PriceLevel)
    (hloc : lookupLoc t.order_locations oid = some p)
    (hlvl : findLevel t.price_levels p = some lvl0)
    (ho : getOrderOpt store oid = some o) :
    (t.update_order_quantity store oid 0).2
        = setOrder store oid { o with open_quantity := 0 } ∧
    getOrderOpt (t.update_order_quantity store oid 0).2 oid
        = some { o with open_quantity := 0 } ∧
    (t.update_order_quantity store oid 0).1.order_locations = t.order_locations ∧
    (t.update_order_quantity store oid 0).1.is_buy_side = t.is_buy_side ∧
    (t.update_order_quantity store oid 0).1.price_levels =
      t.price_levels.map (fun lvl =>
        if lvl.price = p then
          { lvl with total_quantity := lvl.total_quantity - o.open_quantity }
        else lvl) := by
  have hgo : getOrder store oid = o := by simp [getOrder, ho]
  simp [OrderTracker.update_order_quantity, hloc, hlvl, hgo, getOrderOpt_setOrder,
    ho, PriceLevel.update_quantity]

/-- Witness for `amend_to_zero_behaviour` at the concrete amend-to-zero
scenario (order 7, open 50 at price 100). -/
theorem amend_to_zero_behaviour_witness :
    (buyTrackerZ.update_order_quantity storeZ 7 0).2
        = setOrder storeZ 7 { orderZ7 with open_quantity := 0 } ∧
    getOrderOpt (buyTrackerZ.update_order_quantity storeZ 7 0).2 7
        = some { orderZ7 with open_quantity := 0 } ∧
    (buyTrackerZ.update_order_quantity storeZ 7 0).1.order_locations
        = buyTrackerZ.order_locations ∧
    (buyTrackerZ.update_order_quantity storeZ 7 0).1.is_buy_side
        = buyTrackerZ.is_buy_side ∧
    (buyTrackerZ.update_order_quantity storeZ 7 0).1.price_levels =
      buyTrackerZ.price_levels.map (fun lvl =>
        if lvl.price = 100 then
          { lvl with total_quantity := lvl.total_quantity - orderZ7.open_quantity }
        else lvl) :=
  amend_to_zero_behaviour buyTrackerZ storeZ 7 100 orderZ7
    ⟨100, [7], 50, 1⟩ (by decide) (by decide) (by decide)

/-- Comparing a depth snapshot against itself yields no change records. -/
theorem detectSide_self (b : Bool) (l : List DepthLevel) (i : Nat) :
    detectSide b l l i = [] := by
  induction l generalizing i with
  | nil => simp [detectSide]
  | cons hd tl ih => simp [detectSide, ih]

/-- C9: `update_from_tracker` applied twice with the same unmutated SideBooks
leaves the second call with `has_changed()` false and an empty change list —
the second call's previous snapshot equals its freshly recomputed current
snapshot. -/
theorem depth_update_idempotent (dt : DepthTracker) (N : Nat)
    (bid_tracker ask_tracker : OrderTracker) :
    (((dt.update_from_tracker N bid_tracker ask_tracker).update_from_tracker
        N bid_tracker ask_tracker).changed = false) ∧
    ((dt.update_from_tracker N bid_tracker ask_tracker).update_from_tracker
        N bid_tracker ask_tracker).changes = [] := by
  simp [DepthTracker.update_from_tracker, detectSide_self]

/-- Modelled from the words of the fill contract (spec §4.2 `fill`): walk the
FIFO queue; stop when `max_qty` is exhausted (`remaining = 0`) or the level is
empty; charge each order `min(open_qty, remaining)`; subtract the charge from
the order and from `total_qty`; an order whose open quantity reaches zero
becomes FILLED and is removed (count decremented), every other charged order
becomes PARTIALLY_FILLED; return the total quantity charged. -/
def fillSpecLoop : Store → List Nat → Nat → Nat → Nat → FillResult
  | store, [], _, total, count => ⟨store, [], 0, total, count⟩
  | store, id :: rest, remaining, total, count =>
    if remaining = 0 then ⟨store, id :: rest, 0, total, count⟩
    else
      let o := getOrder store id
      let charge := min o.open_quantity remaining
      if o.open_quantity - charge = 0 then
        let store' := setOrder store id
          { o with open_quantity := o.open_quantity - charge, status := OrderStatus.filled }
        let r := fillSpecLoop store' rest (remaining - charge) (total - charge) (count - 1)
        { r with filled := charge + r.filled }
      else
        let store' := setOrder store id
          { o with open_quantity := o.open_quantity - charge,
                   status := OrderStatus.partiallyFilled }
        let r := fillSpecLoop store' rest (remaining - charge) (total - charge) count
        { r with orders := id :: r.orders, filled := charge + r.filled }

/-- The claim's description of `fill(max_qty)` assembled at the level
granularity, for comparison with `PriceLevel.fill_quantity`. -/
def fillQuantitySpec (lvl : PriceLevel) (store : Store) (maxq : Nat) :
    Store × PriceLevel × Nat :=
  let r := fillSpecLoop store lvl.orders maxq lvl.total_quantity lvl.order_count
  (r.store,
   { lvl with orders := r.orders, total_quantity := r.total_quantity,
              order_count := r.order_count },
   r.filled)

/-- The source fill loop (accumulating `filled` and testing
`filled < max_quantity`) agrees with the spec loop (counting `remaining`
down), offset by the quantity already filled. -/
theorem fillLoop_eq_spec (ids : List Nat) :
    ∀ store maxq filled total count, filled ≤ maxq →
      fillLoop store ids maxq filled total count =
        { fillSpecLoop store ids (maxq - filled) total count with
          filled := filled + (fillSpecLoop store ids (maxq - filled) total count).filled } := by
  induction ids with
  | nil => intro store maxq filled total count _; simp [fillLoop, fillSpecLoop]
  | cons id rest ih =>
    intro store maxq filled total count hle
    by_cases hf : filled < maxq
    · have hrem : maxq - filled ≠ 0 := by omega
      simp only [fillLoop, fillSpecLoop, if_pos hf, if_neg hrem]
      have hmin : min (getOrder store id).open_quantity (maxq - filled)
          ≤ maxq - filled := Nat.min_le_right _ _
      by_cases hz : (getOrder store id).open_quantity
          - min (getOrder store id).open_quantity (maxq - filled) = 0
      · simp only [if_pos hz]
        rw [ih _ maxq _ _ _ (by omega)]
        have : maxq - (filled + min (getOrder store id).open_quantity (maxq - filled))
            = maxq - filled - min (getOrder store id).open_quantity (maxq - filled) := by
          omega
        rw [this]
        simp [Nat.add_assoc]
      · simp only [if_neg hz]
        rw [ih _ maxq _ _ _ (by omega)]
        have : maxq - (filled + min (getOrder store id).open_quantity (maxq - filled))
            = maxq - filled - min (getOrder store id).open_quantity (maxq - filled) := by
          omega
        rw [this]
        simp [Nat.add_assoc]
    · have heq : filled = maxq := by omega
      have hrem : maxq - filled = 0 := by omega
      simp [fillLoop, fillSpecLoop, if_neg hf, hrem]

/-- C4: `PriceLevel::fill_quantity` implements the claimed fill contract
exactly: FIFO walk, per-order charge `min(open_qty, remaining)`, charge
subtracted from the order and from `total_qty`, FILLED-and-removed on
reaching zero (count decremented) versus PARTIALLY_FILLED otherwise, stopping
when `max_qty` is exhausted or the level empties, returning the total
charged. -/
theorem fill_quantity_meets_spec (lvl : PriceLevel) (store : Store) (maxq : Nat) :
    lvl.fill_quantity store maxq = fillQuantitySpec lvl store maxq := by
  unfold PriceLevel.fill_quantity fillQuantitySpec
  rw [fillLoop_eq_spec lvl.orders store maxq 0 lvl.total_quantity lvl.order_count
    (Nat.zero_le _)]
  simp

/-- No store step of the matching path ever makes an order REJECTED: if an
order reads REJECTED after the step, it already was before. -/
def noNewReject (s s' : Store) : Prop :=
  ∀ j, (getOrder s' j).status = OrderStatus.rejected →
    (getOrder s j).status = OrderStatus.rejected

theorem noNewReject_refl (s : Store) : noNewReject s s := fun _ h => h

theorem noNewReject_trans {s1 s2 s3 : Store}
    (h12 : noNewReject s1 s2) (h23 : noNewReject s2 s3) : noNewReject s1 s3 :=
  fun j h => h12 j (h23 j h)

/-- Writing an order whose status is either not REJECTED or copied from the
current entry introduces no REJECTED status. -/
theorem noNewReject_setOrder (s : Store) (id : Nat) (o' : Order)
    (h : o'.status ≠ OrderStatus.rejected ∨ o'.status = (getOrder s id).status) :
    noNewReject s (setOrder s id o') := by
  intro j hj
  by_cases hji : j = id
  · subst hji
    rw [getOrder, getOrderOpt_setOrder, if_pos rfl] at hj
    cases hs : getOrderOpt s j with
    | none =>
      rw [hs] at hj
      simp only [Option.map_none', Option.getD_none] at hj
      rw [getOrder, hs]
      exact hj
    | some a =>
      rw [hs] at hj
      simp only [Option.map_some', Option.getD_some] at hj
      cases h with
      | inl hne => exact absurd hj hne
      | inr hcopy => rw [← hcopy, hj]
  · rw [getOrder, getOrderOpt_setOrder, if_neg hji] at hj
    exact hj

/-- Shows that `executeTrade` appends exactly one staged trade and touches no other
book component relevant to rejection, events or the trackers. -/
theorem executeTrade_book_fields (book : OrderBook) (store : Store)
    (a b : Nat) (q : Nat) (p : Int) :
    (executeTrade book store a b q p).1.stats_rejected = book.stats_rejected ∧
    (executeTrade book store a b q p).1.events = book.events ∧
    (executeTrade book store a b q p).1.bid_tracker = book.bid_tracker ∧
    (executeTrade book store a b q p).1.ask_tracker = book.ask_tracker ∧
    (executeTrade book store a b q p).1.stop_bid_tracker = book.stop_bid_tracker ∧
    (executeTrade book store a b q p).1.stop_ask_tracker = book.stop_ask_tracker ∧
    (executeTrade book store a b q p).1.pending_trades.length
      = book.pending_trades.length + 1 := by
  simp [executeTrade]

/-- Shows that `executeTrade` only writes FILLED or PARTIALLY_FILLED into the store. -/
theorem executeTrade_noNewReject (book : OrderBook) (store : Store)
    (a b : Nat) (q : Nat) (p : Int) :
    noNewReject store (executeTrade book store a b q p).2 := by
  apply noNewReject_setOrder
  left
  by_cases h : (getOrder store b).open_quantity - q = 0 <;> simp [h]

/-- Bundle of invariants of the `matchBuyOrder` fill loop: it never touches
the trackers, the event stream or the rejection counter; the staged-trade
buffer only grows; the returned flag is true exactly when it entered true or
at least one trade was staged; and no store write introduces REJECTED. -/
theorem matchLoop_props (plan : List (Nat × Nat)) :
    ∀ (book : OrderBook) (store : Store) (inId cond rem : Nat) (af : Bool),
      (matchLoop book store inId cond plan rem af).1.stats_rejected
          = book.stats_rejected ∧
      (matchLoop book store inId cond plan rem af).1.events = book.events ∧
      (matchLoop book store inId cond plan rem af).1.bid_tracker = book.bid_tracker ∧
      (matchLoop book store inId cond plan rem af).1.ask_tracker = book.ask_tracker ∧
      (matchLoop book store inId cond plan rem af).1.stop_bid_tracker
          = book.stop_bid_tracker ∧
      (matchLoop book store inId cond plan rem af).1.stop_ask_tracker
          = book.stop_ask_tracker ∧
      book.pending_trades.length
          ≤ (matchLoop book store inId cond plan rem af).1.pending_trades.length ∧
      ((matchLoop book store inId cond plan rem af).2.2 = true ↔
        (af = true ∨ book.pending_trades.length
          < (matchLoop book store inId cond plan rem af).1.pending_trades.length)) ∧
      noNewReject store (matchLoop book store inId cond plan rem af).2.1 := by
  induction plan with
  | nil =>
    intro book store inId cond rem af
    simp [matchLoop, noNewReject_refl]
  | cons hd tl ih =>
    intro book store inId cond rem af
    obtain ⟨restId, restQty⟩ := hd
    by_cases h0 : rem = 0
    · simp [matchLoop, h0, noNewReject_refl]
    · by_cases hskip : IsAllOrNone cond && decide (restQty < rem)
      · simpa [matchLoop, h0, hskip] using ih book store inId cond rem af
      · have hE := executeTrade_book_fields book store inId restId
          (min restQty rem) ((getOrder store restId).price)
        set e := executeTrade book store inId restId
          (min restQty rem) ((getOrder store restId).price) with he
        have hEr : noNewReject store e.2 := executeTrade_noNewReject book store inId restId
          (min restQty rem) ((getOrder store restId).price)
        by_cases hz : rem - min restQty rem = 0
        · have hres : matchLoop book store inId cond ((restId, restQty) :: tl) rem af =
            (e.1,
             setOrder
               (setOrder e.2 inId
                 { getOrder e.2 inId with open_quantity := rem - min restQty rem })
               inId
               { getOrder (setOrder e.2 inId
                   { getOrder e.2 inId with open_quantity := rem - min restQty rem }) inId
                 with status := OrderStatus.filled },
             true) := by
            simp only [matchLoop, if_neg h0, hskip, Bool.false_eq_true, if_false, ← he,
              if_pos hz]
          rw [hres]
          obtain ⟨e1, e2, e3, e4, e5, e6, e7⟩ := hE
          refine ⟨e1, e2, e3, e4, e5, e6, ?_, ?_, ?_⟩
          · change book.pending_trades.length ≤ e.1.pending_trades.length
            omega
          · change true = true ↔ (af = true ∨
              book.pending_trades.length < e.1.pending_trades.length)
            simp only [true_iff]
            right
            omega
          · change noNewReject store (setOrder (setOrder e.2 inId
                { getOrder e.2 inId with open_quantity := rem - min restQty rem })
              inId
              { getOrder (setOrder e.2 inId
                  { getOrder e.2 inId with open_quantity := rem - min restQty rem }) inId
                with status := OrderStatus.filled })
            have h1 : noNewReject e.2 (setOrder e.2 inId
                { getOrder e.2 inId with open_quantity := rem - min restQty rem }) :=
              noNewReject_setOrder _ _ _ (Or.inr rfl)
            have h2 := noNewReject_setOrder
              (setOrder e.2 inId
                { getOrder e.2 inId with open_quantity := rem - min restQty rem })
              inId
              { getOrder (setOrder e.2 inId
                  { getOrder e.2 inId with open_quantity := rem - min restQty rem }) inId
                with status := OrderStatus.filled }
              (Or.inl (by simp))
            exact noNewReject_trans hEr (noNewReject_trans h1 h2)
        · have hres : matchLoop book store inId cond ((restId, restQty) :: tl) rem af =
            matchLoop e.1
              (setOrder
                (setOrder e.2 inId
                  { getOrder e.2 inId with open_quantity := rem - min restQty rem })
                inId
                { getOrder (setOrder e.2 inId
                    { getOrder e.2 inId with open_quantity := rem - min restQty rem }) inId
                  with status := OrderStatus.partiallyFilled })
              inId cond tl (rem - min restQty rem) true := by
            simp only [matchLoop, if_neg h0, hskip, Bool.false_eq_true, if_false, ← he,
              if_neg hz]
          rw [hres]
          obtain ⟨e1, e2, e3, e4, e5, e6, e7⟩ := hE
          obtain ⟨i1, i2, i3, i4, i5, i6, i7, i8, i9⟩ := ih e.1
            (setOrder
              (setOrder e.2 inId
                { getOrder e.2 inId with open_quantity := rem - min restQty rem })
              inId
              { getOrder (setOrder e.2 inId
                  { getOrder e.2 inId with open_quantity := rem - min restQty rem }) inId
                with status := OrderStatus.partiallyFilled })
            inId cond (rem - min restQty rem) true
          refine ⟨i1.trans e1, i2.trans e2, i3.trans e3, i4.trans e4, i5.trans e5,
            i6.trans e6, by omega, ?_, ?_⟩
          · constructor
            · intro _
              right
              omega
            · intro _
              exact i8.mpr (Or.inl rfl)
          · have h1 : noNewReject e.2 (setOrder e.2 inId
                { getOrder e.2 inId with open_quantity := rem - min restQty rem }) :=
              noNewReject_setOrder _ _ _ (Or.inr rfl)
            have h2 := noNewReject_setOrder
              (setOrder e.2 inId
                { getOrder e.2 inId with open_quantity := rem - min restQty rem })
              inId
              { getOrder (setOrder e.2 inId
                  { getOrder e.2 inId with open_quantity := rem - min restQty rem }) inId
                with status := OrderStatus.partiallyFilled }
              (Or.inl (by simp))
            exact noNewReject_trans hEr (noNewReject_trans h1 (noNewReject_trans h2 i9))

/-- Shows that `processMarketOrder` preserves the trackers, events and the rejection
counter; it returns true exactly when a trade was staged; and its store
writes never introduce REJECTED. -/
theorem processMarketOrder_props (book : OrderBook) (store : Store) (oid cond : Nat) :
    (processMarketOrder book store oid cond).1.stats_rejected = book.stats_rejected ∧
    (processMarketOrder book store oid cond).1.events = book.events ∧
    (processMarketOrder book store oid cond).1.bid_tracker = book.bid_tracker ∧
    (processMarketOrder book store oid cond).1.ask_tracker = book.ask_tracker ∧
    (processMarketOrder book store oid cond).1.stop_bid_tracker = book.stop_bid_tracker ∧
    (processMarketOrder book store oid cond).1.stop_ask_tracker = book.stop_ask_tracker ∧
    ((processMarketOrder book store oid cond).2.2 = true ↔
      book.pending_trades.length
        < (processMarketOrder book store oid cond).1.pending_trades.length) ∧
    noNewReject store (processMarketOrder book store oid cond).2.1 := by
  have hmb : matchMarketBuyOrder book store oid cond
      = matchLoop book store oid cond
          (book.ask_tracker.matchQuantity store int64Max (getOrder store oid).open_quantity)
          (getOrder store oid).open_quantity false := rfl
  by_cases hb : (getOrder store oid).is_buy = true
  · obtain ⟨m1, m2, m3, m4, m5, m6, m7, m8, m9⟩ := matchLoop_props
      (book.ask_tracker.matchQuantity store int64Max (getOrder store oid).open_quantity)
      book store oid cond (getOrder store oid).open_quantity false
    simp only [processMarketOrder, hb, if_true, hmb]
    set M := matchLoop book store oid cond
      (book.ask_tracker.matchQuantity store int64Max (getOrder store oid).open_quantity)
      (getOrder store oid).open_quantity false with hM
    by_cases hopen : (getOrder M.2.1 oid).open_quantity > 0
    · rw [if_pos hopen]
      refine ⟨m1, m2, m3, m4, m5, m6, ?_, ?_⟩
      · simpa using m8
      · exact noNewReject_trans m9 (noNewReject_setOrder _ _ _ (Or.inl (by simp)))
    · rw [if_neg hopen]
      refine ⟨m1, m2, m3, m4, m5, m6, by simpa using m8, m9⟩
  · simp only [processMarketOrder, hb, if_false, Bool.false_eq_true]
    by_cases hopen : (getOrder store oid).open_quantity > 0
    · rw [if_pos hopen]
      exact ⟨rfl, rfl, rfl, rfl, rfl, rfl, by simp,
        noNewReject_setOrder _ _ _ (Or.inl (by simp))⟩
    · rw [if_neg hopen]
      exact ⟨rfl, rfl, rfl, rfl, rfl, rfl, by simp, noNewReject_refl store⟩

/-- C6: an order submitted through a live pointer is rejected exactly when a
validation rule fails; on rejection the status becomes REJECTED, an
`on_reject` broadcast with a reason is appended, the rejected counter is
incremented and the call returns no fill with the books untouched; on
validation success the counter, the event stream and the non-REJECTED status
are all preserved. -/
theorem add_order_rejection_contract (book : OrderBook) (store : Store)
    (oid cond : Nat) (o : Order) (h : getOrderOpt store oid = some o) :
    ∃ b' s' f, book.addOrder store oid cond = some (b', s', f) ∧
      (validateOrder book.symbol o = false →
        f = false ∧
        (getOrder s' oid).status = OrderStatus.rejected ∧
        b'.events = book.events ++ [EngineEvent.reject oid "Invalid order parameters"] ∧
        b'.stats_rejected = book.stats_rejected + 1 ∧
        b'.pending_trades = book.pending_trades ∧
        b'.bid_tracker = book.bid_tracker ∧
        b'.ask_tracker = book.ask_tracker ∧
        b'.stop_bid_tracker = book.stop_bid_tracker ∧
        b'.stop_ask_tracker = book.stop_ask_tracker) ∧
      (validateOrder book.symbol o = true →
        b'.stats_rejected = book.stats_rejected ∧
        b'.events = book.events ∧
        ((getOrder s' oid).status = OrderStatus.rejected →
          o.status = OrderStatus.rejected)) := by
  have hgo : getOrder store oid = o := by simp [getOrder, h]
  simp only [OrderBook.addOrder, h]
  by_cases hv : validateOrder book.symbol o = true
  · rw [if_pos hv]
    by_cases hm : o.is_market = true
    · rw [if_pos hm]
      obtain ⟨p1, p2, p3, p4, p5, p6, p7, p8⟩ :=
        processMarketOrder_props book store oid cond
      refine ⟨_, _, _, rfl, by simp [hv], fun _ => ⟨p1, p2, fun hrej => ?_⟩⟩
      rw [← hgo]
      exact p8 oid hrej
    · rw [if_neg hm]
      exact ⟨book, store, false, rfl, by simp [hv],
        fun _ => ⟨rfl, rfl, fun hrej => by rw [← hgo]; exact hrej⟩⟩
  · rw [if_neg hv]
    refine ⟨_, _, _, rfl, fun _ => ?_, by simp at hv; simp [hv]⟩
    refine ⟨rfl, ?_, rfl, rfl, rfl, rfl, rfl, rfl, rfl⟩
    simp only [rejectOrder]
    rw [getOrder, getOrderOpt_setOrder, if_pos rfl, h]
    simp

/-- C10: `add_order` returns true exactly when at least one trade was staged
during the call, and a valid non-market order is returned with `false` and
with the four side books and the order itself untouched (limit and stop
processing are unimplemented todos). -/
theorem add_order_fill_flag (book : OrderBook) (store : Store) (oid cond : Nat)
    (o : Order) (b' : OrderBook) (s' : Store) (f : Bool)
    (h1 : book.addOrder store oid cond = some (b', s', f))
    (h2 : getOrderOpt store oid = some o) :
    (f = true ↔ book.pending_trades.length < b'.pending_trades.length) ∧
    (validateOrder book.symbol o = true → o.is_market = false →
      f = false ∧
      b'.bid_tracker = book.bid_tracker ∧
      b'.ask_tracker = book.ask_tracker ∧
      b'.stop_bid_tracker = book.stop_bid_tracker ∧
      b'.stop_ask_tracker = book.stop_ask_tracker ∧
      getOrderOpt s' oid = some o) := by
  simp only [OrderBook.addOrder, h2] at h1
  by_cases hv : validateOrder book.symbol o = true
  · rw [if_pos hv] at h1
    by_cases hm : o.is_market = true
    · rw [if_pos hm] at h1
      obtain ⟨p1, p2, p3, p4, p5, p6, p7, p8⟩ :=
        processMarketOrder_props book store oid cond
      simp only [Option.some.injEq, Prod.ext_iff] at h1
      obtain ⟨hb, hs, hf⟩ := h1
      subst hb hs hf
      exact ⟨p7, fun _ hmm => absurd hm (by simp [hmm])⟩
    · rw [if_neg hm] at h1
      simp only [Option.some.injEq, Prod.ext_iff] at h1
      obtain ⟨hb, hs, hf⟩ := h1
      subst hb hs hf
      exact ⟨by simp, fun _ _ => ⟨rfl, rfl, rfl, rfl, rfl, h2⟩⟩
  · rw [if_neg hv] at h1
    simp only [Option.some.injEq, Prod.ext_iff] at h1
    obtain ⟨hb, hs, hf⟩ := h1
    subst hb hs hf
    refine ⟨by simp [rejectOrder], fun hv' => absurd hv' hv⟩

/-- An invalid order (original quantity 0) used to witness the rejection
contract. -/
def orderBad : Order :=
  { order_id := 9, symbol := "AAPL", side := OrderSide.buy, quantity := 0,
    open_quantity := 0, price := 100, stop_price := 0,
    order_type := OrderType.limit, time_in_force := TimeInForce.gtc,
    status := OrderStatus.pending }

/-- Shared heap holding only the invalid order. -/
def storeBad : Store := [(9, orderBad)]

/-- Witness for `add_order_rejection_contract` at a concrete invalid order
(quantity 0). -/
theorem add_order_rejection_contract_witness :
    ∃ b' s' f, (emptyBook "AAPL").addOrder storeBad 9 0 = some (b', s', f) ∧
      (validateOrder (emptyBook "AAPL").symbol orderBad = false →
        f = false ∧
        (getOrder s' 9).status = OrderStatus.rejected ∧
        b'.events = (emptyBook "AAPL").events
          ++ [EngineEvent.reject 9 "Invalid order parameters"] ∧
        b'.stats_rejected = (emptyBook "AAPL").stats_rejected + 1 ∧
        b'.pending_trades = (emptyBook "AAPL").pending_trades ∧
        b'.bid_tracker = (emptyBook "AAPL").bid_tracker ∧
        b'.ask_tracker = (emptyBook "AAPL").ask_tracker ∧
        b'.stop_bid_tracker = (emptyBook "AAPL").stop_bid_tracker ∧
        b'.stop_ask_tracker = (emptyBook "AAPL").stop_ask_tracker) ∧
      (validateOrder (emptyBook "AAPL").symbol orderBad = true →
        b'.stats_rejected = (emptyBook "AAPL").stats_rejected ∧
        b'.events = (emptyBook "AAPL").events ∧
        ((getOrder s' 9).status = OrderStatus.rejected →
          orderBad.status = OrderStatus.rejected)) :=
  add_order_rejection_contract (emptyBook "AAPL") storeBad 9 0 orderBad (by decide)

/-- Witness for `add_order_fill_flag` at the concrete unprocessed limit-buy
scenario. -/
theorem add_order_fill_flag_witness :
    ((false : Bool) = true ↔
      bookA.pending_trades.length < bookA.pending_trades.length) ∧
    (validateOrder bookA.symbol orderL2 = true → orderL2.is_market = false →
      (false : Bool) = false ∧
      bookA.bid_tracker = bookA.bid_tracker ∧
      bookA.ask_tracker = bookA.ask_tracker ∧
      bookA.stop_bid_tracker = bookA.stop_bid_tracker ∧
      bookA.stop_ask_tracker = bookA.stop_ask_tracker ∧
      getOrderOpt storeL 2 = some orderL2) :=
  add_order_fill_flag bookA storeL 2 0 orderL2 bookA storeL false rfl (by decide)
